import Mathlib

/-!
Verification development for the DexScreener analytics plugin
(`src/service.ts`, `src/actions.ts`, `src/types.ts`).

The service layer is embedded shallowly: every upstream HTTP endpoint is an
oracle field of `UpstreamApi`, each client operation is a pure function from
that oracle (and its parameters) to a `DexScreenerServiceResponse` paired with
the list of network requests it issued, in order.  JavaScript semantics that
the code relies on are modelled explicitly:

* `x || d` truthiness (`0` and `""` are falsy) — `jsOrNat`, `jsOrStr`;
* `Array.isArray` dynamic-shape checks — sum-typed response bodies;
* `undefined` vs `null` (`arr[0]` on an empty array is `undefined`, which is
  kept by `filter(p => p !== null)`) — the `TrendItem` type;
* `Number.prototype.toFixed` — `jsToFixed` over `ℚ` (round half away from
  zero on the absolute value, sign prepended; the exponential branch for
  magnitudes ≥ 1e21 is outside the modelled range);
* `parseFloat` / `parseInt` — decimal-string parsers over `ℚ` / `ℕ`
  (the NaN case of non-numeric input is modelled as 0 and is outside every
  claim's range).
-/

/-- Models JS `x || d` for an optional number: `0` (and absence) is falsy. -/
def jsOrNat (o : Option Nat) (d : Nat) : Nat :=
  match o with
  | some n => if n ≠ 0 then n else d
  | none => d

/-- Models JS `String.prototype.toLowerCase` character-wise (total and
definitionally reducible, unlike the position-based library function). -/
def jsToLowerCase (s : String) : String :=
  String.mk (s.data.map Char.toLower)

/-- Models JS `x || d` for an optional string: `""` (and absence) is falsy. -/
def jsOrStr (o : Option String) (d : String) : String :=
  match o with
  | some s => if s ≠ "" then s else d
  | none => d

/-- Decimal digit character for a digit value (out-of-range values, which are
never produced, render as `'0'`). -/
def digitChar (d : Nat) : Char :=
  ['0', '1', '2', '3', '4', '5', '6', '7', '8', '9'].getD d '0'

/-- Base-10 digit characters of a natural number, least significant first. -/
def natDigitsRev (n : Nat) : List Char :=
  if h : n < 10 then [digitChar n]
  else digitChar (n % 10) :: natDigitsRev (n / 10)
decreasing_by exact Nat.div_lt_self (by omega) (by omega)

/-- Base-10 digit characters of a natural number, most significant first. -/
def natChars (n : Nat) : List Char :=
  (natDigitsRev n).reverse

/-- Decimal rendering of a natural number (JS number-to-string for naturals). -/
def natStr (n : Nat) : String :=
  String.mk (natChars n)

/-- Floor of a rational number, computed with floor division. -/
def ratFloor (q : ℚ) : Int :=
  Int.fdiv q.num (q.den : Int)

/-- Rounding to the nearest natural, ties upward: `⌊x + 1/2⌋`, clamped at 0.
This is the ECMAScript `toFixed` integer choice for nonnegative inputs
("if there are two such n, pick the larger n"). -/
def jsRoundNat (x : ℚ) : Nat :=
  (ratFloor (x + 1 / 2)).toNat

/-- Digit characters of `m` left-padded with `'0'` to width `f`. -/
def padDigits (f m : Nat) : List Char :=
  List.replicate (f - (natChars m).length) '0' ++ natChars m

/-- Character-list form of `toFixed(f)` for a nonnegative rational. -/
def jsToFixedNonnegChars (f : Nat) (q : ℚ) : List Char :=
  let n := jsRoundNat (q * (10 ^ f : ℚ))
  if f = 0 then natChars n
  else natChars (n / 10 ^ f) ++ '.' :: padDigits f (n % 10 ^ f)

/-- Character-list form of `Number.prototype.toFixed(f)`: sign first, then the
fixed-point rendering of the absolute value. -/
def jsToFixedChars (f : Nat) (q : ℚ) : List Char :=
  if q < 0 then '-' :: jsToFixedNonnegChars f (-q) else jsToFixedNonnegChars f q

/-- Models `Number.prototype.toFixed(f)` over exact rationals. -/
def jsToFixed (f : Nat) (q : ℚ) : String :=
  String.mk (jsToFixedChars f q)

/-- Digit test used by the string parsers. -/
def digitVal? (c : Char) : Option Nat :=
  if '0' ≤ c ∧ c ≤ '9' then some (c.toNat - '0'.toNat) else none

/-- Splits off the longest leading run of decimal digits. -/
def takeDigits : List Char → List Nat × List Char
  | [] => ([], [])
  | c :: rest =>
    match digitVal? c with
    | some d =>
      let p := takeDigits rest
      (d :: p.1, p.2)
    | none => ([], c :: rest)

/-- Value of a digit run read as an integer part. -/
def digitsToNat (ds : List Nat) : Nat :=
  ds.foldl (fun a d => 10 * a + d) 0

/-- Value of a digit run read as a fractional part (first digit is tenths). -/
def fracValue (ds : List Nat) : ℚ :=
  ds.foldr (fun d a => ((d : ℚ) + a) / 10) 0

/-- Models JS `parseFloat` on decimal numeric strings: optional sign, integer
digits, optional fraction; trailing garbage is ignored.  Non-numeric input
(JS `NaN`) is modelled as `0` and lies outside every claim's range. -/
def parseFloatModel (s : String) : ℚ :=
  let l := s.data.dropWhile (fun c => c = ' ')
  let signed : Bool × List Char :=
    match l with
    | '-' :: r => (true, r)
    | '+' :: r => (false, r)
    | _ => (false, l)
  let ip := takeDigits signed.2
  let fp : List Nat :=
    match ip.2 with
    | '.' :: r => (takeDigits r).1
    | _ => []
  let v : ℚ := (digitsToNat ip.1 : ℚ) + fracValue fp
  if signed.1 then -v else v

/-- Models JS `parseInt` on decimal numeric strings (nonnegative case). -/
def parseIntNat (s : String) : Nat :=
  digitsToNat (takeDigits (s.data.dropWhile (fun c => c = ' '))).1

/-! ## Data model (`src/types.ts`) -/

/-- Embeds `DexScreenerTokenInfo` from `types.ts`. -/
structure DexScreenerTokenInfo where
  address : String
  name : String
  symbol : String
  decimals : Nat

/-- One buys/sells transaction-count window. -/
structure TxnWindow where
  buys : Nat
  sells : Nat

/-- The fixed m5/h1/h6/h24 transaction-count windows of a pair. -/
structure TxnWindows where
  m5 : TxnWindow
  h1 : TxnWindow
  h6 : TxnWindow
  h24 : TxnWindow

/-- The fixed volume windows of a pair. -/
structure VolumeWindows where
  h24 : ℚ
  h6 : ℚ
  h1 : ℚ
  m5 : ℚ

/-- The fixed price-change windows of a pair. -/
structure PriceChangeWindows where
  m5 : ℚ
  h1 : ℚ
  h6 : ℚ
  h24 : ℚ

/-- Optional liquidity block of a pair. -/
structure LiquidityInfo where
  usd : Option ℚ
  base : ℚ
  quote : ℚ

/-- A labelled website link in a pair's descriptive metadata. -/
structure LabeledLink where
  label : String
  url : String

/-- A social link in a pair's descriptive metadata. -/
structure SocialLink where
  type : String
  url : String

/-- Optional descriptive metadata block of a pair. -/
structure PairExtraInfo where
  imageUrl : Option String
  websites : Option (List LabeledLink)
  socials : Option (List SocialLink)

/-- Embeds `DexScreenerPair` from `types.ts`. -/
structure DexScreenerPair where
  chainId : String
  dexId : String
  url : String
  pairAddress : String
  labels : Option (List String)
  baseToken : DexScreenerTokenInfo
  quoteToken : DexScreenerTokenInfo
  priceNative : String
  priceUsd : Option String
  txns : TxnWindows
  volume : VolumeWindows
  priceChange : PriceChangeWindows
  liquidity : Option LiquidityInfo
  fdv : Option ℚ
  marketCap : Option ℚ
  pairCreatedAt : Option Nat
  info : Option PairExtraInfo

/-- A (label, type, url) link of a profile or boosted token. -/
structure ProfileLink where
  label : String
  type : String
  url : String

/-- Embeds `DexScreenerProfile` from `types.ts`. -/
structure DexScreenerProfile where
  url : String
  chainId : String
  tokenAddress : String
  icon : Option String
  header : Option String
  openGraph : Option String
  description : Option String
  links : Option (List ProfileLink)

/-- Embeds `DexScreenerBoostedToken` from `types.ts`. -/
structure DexScreenerBoostedToken where
  url : String
  chainId : String
  tokenAddress : String
  amount : ℚ
  totalAmount : ℚ
  icon : Option String
  header : Option String
  description : Option String
  links : Option (List ProfileLink)

/-- Embeds `DexScreenerOrder` from `types.ts`. -/
structure DexScreenerOrder where
  type : String
  status : String
  paymentTimestamp : Nat

/-- Embeds `DexScreenerServiceResponse<T>` from `types.ts`: the uniform envelope. -/
structure DexScreenerServiceResponse (α : Type) where
  success : Bool
  data : Option α := none
  error : Option String := none

/-- Successful envelope `{success: true, data}`. -/
def srOk {α : Type} (d : α) : DexScreenerServiceResponse α :=
  { success := true, data := some d, error := none }

/-- Failure envelope `{success: false, error}`. -/
def srFail {α : Type} (msg : String) : DexScreenerServiceResponse α :=
  { success := false, data := none, error := some msg }

/-- Embeds `DexScreenerSearchParams`. -/
structure DexScreenerSearchParams where
  query : String

/-- Embeds `DexScreenerTokenParams`. -/
structure DexScreenerTokenParams where
  tokenAddress : String

/-- Embeds `DexScreenerPairParams`. -/
structure DexScreenerPairParams where
  pairAddress : String

/-- Embeds `DexScreenerTrendingParams`: the optional timeframe kept as a
string, the optional limit as a natural number. -/
structure DexScreenerTrendingParams where
  timeframe : Option String := none
  limit : Option Nat := none

/-- Sort keys of `DexScreenerChainParams`. -/
inductive SortKey where
  | volume
  | liquidity
  | priceChange
  | txns

/-- Embeds `DexScreenerChainParams`. -/
structure DexScreenerChainParams where
  chain : String
  sortBy : Option SortKey := none
  limit : Option Nat := none

/-- Embeds `DexScreenerNewPairsParams`. -/
structure DexScreenerNewPairsParams where
  chain : Option String := none
  limit : Option Nat := none

/-! ## Transport model -/

/-- A transport/upstream failure caught by a client `catch` block:
`error.response?.data?.message` (if the upstream sent a body with a message)
and `error.message`. -/
structure AxiosError where
  responseDataMessage : Option String
  message : String

/-- Error-message preference chain of every client catch block:
`error.response?.data?.message || error.message || fallback`
(JS `||`, so empty strings fall through). -/
def errMsg (e : AxiosError) (fallback : String) : String :=
  jsOrStr e.responseDataMessage (jsOrStr (some e.message) fallback)

/-- Body of `/latest/dex/search` and `/latest/dex/tokens/{addr}`:
an object whose `pairs` field may be absent. -/
structure SearchResponseBody where
  pairs : Option (List DexScreenerPair)

/-- Body of `/latest/dex/pairs/{pairAddress}`: an object whose `pair` field
may be absent. -/
structure PairResponseBody where
  pair : Option DexScreenerPair

/-- Body of `/tokens/v1/{chain}/{addr}`: the code probes it with
`Array.isArray`, so the model distinguishes an array of pairs from any
non-array (or absent) payload. -/
inductive TokensV1Body where
  | arr (pairsList : List DexScreenerPair)
  | notArr

/-- Body of the boost endpoints: sometimes an array, sometimes one object. -/
inductive BoostsBody where
  | arr (tokens : List DexScreenerBoostedToken)
  | single (token : DexScreenerBoostedToken)

/-- Body of `/token-profiles/latest/v1`: array or single object. -/
inductive ProfilesBody where
  | arr (profiles : List DexScreenerProfile)
  | single (profile : DexScreenerProfile)

/-- One upstream HTTP GET issued by the client, carrying its path parameters.
Constructors are in bijection with the endpoint table of the service. -/
inductive ApiRequest where
  | searchQ (q : String)
  | tokensByAddress (addr : String)
  | pairByAddress (addr : String)
  | tokensV1 (chainId addr : String)
  | tokenProfilesLatest
  | tokenBoostsLatest
  | tokenBoostsTop
  | ordersV1 (chainId addr : String)
  | tokenPairsV1 (chainId addr : String)

/-- The upstream API as a deterministic oracle: one field per endpoint
family, each returning either a parsed body or a caught transport error. -/
structure UpstreamApi where
  searchEndpoint : String → Except AxiosError SearchResponseBody
  tokensEndpoint : String → Except AxiosError SearchResponseBody
  pairEndpoint : String → Except AxiosError PairResponseBody
  tokensV1Endpoint : String → String → Except AxiosError TokensV1Body
  profilesLatestEndpoint : Except AxiosError ProfilesBody
  boostsLatestEndpoint : Except AxiosError BoostsBody
  boostsTopEndpoint : Except AxiosError BoostsBody
  ordersEndpoint : String → String → Except AxiosError (Option (List DexScreenerOrder))
  tokenPairsV1Endpoint : String → String → Except AxiosError (Option (List DexScreenerPair))

/-- An element of the array built by `getTrending`'s fan-out: the JS value is
a pair, or `null` (catch branch / non-array data), or `undefined`
(`data[0]` of an empty array).  `filter(pair => pair !== null)` drops only
`null`. -/
inductive TrendItem where
  | undef
  | nul
  | pair (p : DexScreenerPair)

/-- Bool test for the `pair !== null` filter predicate. -/
def TrendItem.isNull : TrendItem → Bool
  | .nul => true
  | _ => false

/-! ## Market data client (`src/service.ts`)

Each operation is a function of the upstream oracle and its parameters,
returning the service envelope together with the ordered list of network
requests it issued (requests are recorded whether or not they succeed). -/

namespace DexScreenerService

/-- Normalizes the boost-endpoint body exactly as the code does:
`Array.isArray(response.data) ? response.data : [response.data]`. -/
def normalizeBoosts (b : BoostsBody) : List DexScreenerBoostedToken :=
  match b with
  | .arr l => l
  | .single t => [t]

/-- Normalizes the profiles-endpoint body exactly as the code does. -/
def normalizeProfiles (b : ProfilesBody) : List DexScreenerProfile :=
  match b with
  | .arr l => l
  | .single p => [p]

/-- Embeds `search`: GET `/latest/dex/search?q=`, `response.data.pairs || []`. -/
def search (api : UpstreamApi) (params : DexScreenerSearchParams) :
    DexScreenerServiceResponse (List DexScreenerPair) × List ApiRequest :=
  match api.searchEndpoint params.query with
  | .ok resp => (srOk (resp.pairs.getD []), [.searchQ params.query])
  | .error e => (srFail (errMsg e "Failed to search tokens"), [.searchQ params.query])

/-- Embeds `getTokenPairs`: GET `/latest/dex/tokens/{addr}`, `response.data.pairs || []`. -/
def getTokenPairs (api : UpstreamApi) (params : DexScreenerTokenParams) :
    DexScreenerServiceResponse (List DexScreenerPair) × List ApiRequest :=
  match api.tokensEndpoint params.tokenAddress with
  | .ok resp => (srOk (resp.pairs.getD []), [.tokensByAddress params.tokenAddress])
  | .error e =>
    (srFail (errMsg e "Failed to get token pairs"), [.tokensByAddress params.tokenAddress])

/-- Embeds `getPair`: GET `/latest/dex/pairs/{addr}`; fails with "Pair not found"
when `response.data.pair` is absent. -/
def getPair (api : UpstreamApi) (params : DexScreenerPairParams) :
    DexScreenerServiceResponse DexScreenerPair × List ApiRequest :=
  match api.pairEndpoint params.pairAddress with
  | .ok resp =>
    match resp.pair with
    | some p => (srOk p, [.pairByAddress params.pairAddress])
    | none => (srFail "Pair not found", [.pairByAddress params.pairAddress])
  | .error e => (srFail (errMsg e "Failed to get pair"), [.pairByAddress params.pairAddress])

/-- One fan-out step of `getTrending`:
`Array.isArray(pairResponse.data) ? pairResponse.data[0] : null`, with the
catch branch returning `null`.  `data[0]` of an empty array is `undefined`. -/
def trendingItemOf (api : UpstreamApi) (t : DexScreenerBoostedToken) : TrendItem :=
  match api.tokensV1Endpoint t.chainId t.tokenAddress with
  | .ok (.arr []) => .undef
  | .ok (.arr (p :: _)) => .pair p
  | .ok .notArr => .nul
  | .error _ => .nul

/-- Embeds `getTrending`: GET `/token-boosts/top/v1`, then for each of the first
`params.limit || 10` boosted tokens GET `/tokens/v1/{chain}/{addr}`; the
joined results are filtered with `pair !== null`. -/
def getTrending (api : UpstreamApi) (params : DexScreenerTrendingParams) :
    DexScreenerServiceResponse (List TrendItem) × List ApiRequest :=
  match api.boostsTopEndpoint with
  | .error e => (srFail (errMsg e "Failed to get trending pairs"), [.tokenBoostsTop])
  | .ok resp =>
    let boostedTokens := normalizeBoosts resp
    let sliced := boostedTokens.take (jsOrNat params.limit 10)
    let items := sliced.map (trendingItemOf api)
    let pairs := items.filter (fun it => !it.isNull)
    (srOk pairs,
      .tokenBoostsTop :: sliced.map (fun t => .tokensV1 t.chainId t.tokenAddress))

/-- Sort metric of `getPairsByChain`'s comparator (each `b.<metric> - a.<metric>`
difference uses `|| 0` on missing values; `txns` is the 24h buys+sells sum). -/
def chainMetric (sb : SortKey) (p : DexScreenerPair) : ℚ :=
  match sb with
  | .volume => p.volume.h24
  | .liquidity => ((p.liquidity.map (fun l => l.usd.getD 0)).getD 0)
  | .priceChange => p.priceChange.h24
  | .txns => ((p.txns.h24.buys + p.txns.h24.sells : Nat) : ℚ)

/-- Comparator order induced by `(a, b) => metric(b) - metric(a)`: `a` may
stay before `b` exactly when the comparator is ≤ 0. -/
def chainSortLe (sb : SortKey) (a b : DexScreenerPair) : Bool :=
  decide (chainMetric sb b ≤ chainMetric sb a)

/-- Chain filter of `getPairsByChain`:
`pair.chainId.toLowerCase() === params.chain.toLowerCase()`. -/
def chainFiltered (resp : SearchResponseBody) (chain : String) : List DexScreenerPair :=
  (resp.pairs.getD []).filter (fun p => jsToLowerCase p.chainId == jsToLowerCase chain)

/-- Sorting stage of `getPairsByChain`: JS `Array.prototype.sort` (stable,
comparator-consistent) applied only when a sort key is present. -/
def chainSorted (resp : SearchResponseBody) (params : DexScreenerChainParams) :
    List DexScreenerPair :=
  match params.sortBy with
  | some sb => (chainFiltered resp params.chain).mergeSort (chainSortLe sb)
  | none => chainFiltered resp params.chain

/-- Effective truncation bound of `getPairsByChain`:
`params.limit ? pairs.slice(0, params.limit) : pairs.slice(0, 20)` —
a `0` limit is falsy and falls back to 20. -/
def chainEffLimit (limit : Option Nat) : Nat :=
  match limit with
  | some l => if l ≠ 0 then l else 20
  | none => 20

/-- Embeds `getPairsByChain`: text search with the chain name as query, filter to the
chain, optional descending sort, truncation. -/
def getPairsByChain (api : UpstreamApi) (params : DexScreenerChainParams) :
    DexScreenerServiceResponse (List DexScreenerPair) × List ApiRequest :=
  match api.searchEndpoint params.chain with
  | .error e => (srFail (errMsg e "Failed to get pairs by chain"), [.searchQ params.chain])
  | .ok resp =>
    (srOk ((chainSorted resp params).take (chainEffLimit params.limit)),
      [.searchQ params.chain])

/-- Label augmentation of `getNewPairs`:
`pairs[0].labels?.includes('new') ? pairs[0].labels : [...(pairs[0].labels || []), 'new']`. -/
def addNewLabel (p : DexScreenerPair) : DexScreenerPair :=
  { p with
    labels :=
      match p.labels with
      | some ls => if ls.contains "new" then some ls else some (ls ++ ["new"])
      | none => some ["new"] }

/-- One fan-out step of `getNewPairs`: fetch the token's pairs, take the first
pair augmented with the "new" label, or `null` when there is none (empty or
non-array data) or the lookup failed. -/
def newPairItemOf (api : UpstreamApi) (pr : DexScreenerProfile) : Option DexScreenerPair :=
  match api.tokensV1Endpoint pr.chainId pr.tokenAddress with
  | .ok (.arr (p :: _)) => some (addNewLabel p)
  | .ok (.arr []) => none
  | .ok .notArr => none
  | .error _ => none

/-- Chain filter of `getNewPairs` (`params.chain` is tested for JS truthiness,
so an empty-string chain disables the filter). -/
def newPairsFiltered (profiles : List DexScreenerProfile) (chain : Option String) :
    List DexScreenerProfile :=
  match chain with
  | some c =>
    if c ≠ "" then profiles.filter (fun p => jsToLowerCase p.chainId == jsToLowerCase c) else profiles
  | none => profiles

/-- Embeds `getNewPairs`: GET `/token-profiles/latest/v1`, optional chain filter,
fan-out pair lookups over the first `params.limit || 10` profiles, `null`s
dropped. -/
def getNewPairs (api : UpstreamApi) (params : DexScreenerNewPairsParams) :
    DexScreenerServiceResponse (List DexScreenerPair) × List ApiRequest :=
  match api.profilesLatestEndpoint with
  | .error e => (srFail (errMsg e "Failed to get new pairs"), [.tokenProfilesLatest])
  | .ok resp =>
    let profiles := normalizeProfiles resp
    let sliced := (newPairsFiltered profiles params.chain).take (jsOrNat params.limit 10)
    let pairs := (sliced.map (newPairItemOf api)).filterMap id
    (srOk pairs,
      .tokenProfilesLatest :: sliced.map (fun pr => .tokensV1 pr.chainId pr.tokenAddress))

/-- Embeds `getTokenProfile`: fetch the whole latest-profiles listing and linearly
search for a case-insensitive address match. -/
def getTokenProfile (api : UpstreamApi) (tokenAddress : String) :
    DexScreenerServiceResponse DexScreenerProfile × List ApiRequest :=
  match api.profilesLatestEndpoint with
  | .error e => (srFail (errMsg e "Failed to get token profile"), [.tokenProfilesLatest])
  | .ok resp =>
    match (normalizeProfiles resp).find?
        (fun p => jsToLowerCase p.tokenAddress == jsToLowerCase tokenAddress) with
    | some profile => (srOk profile, [.tokenProfilesLatest])
    | none => (srFail "Token profile not found", [.tokenProfilesLatest])

/-- Embeds `getMultipleTokens`: fail fast over 30 addresses (before any request),
otherwise one batched GET of the comma-joined addresses. -/
def getMultipleTokens (api : UpstreamApi) (chainId : String) (tokenAddresses : List String) :
    DexScreenerServiceResponse (List DexScreenerPair) × List ApiRequest :=
  if tokenAddresses.length > 30 then
    (srFail "Maximum 30 token addresses allowed", [])
  else
    let addresses := String.intercalate "," tokenAddresses
    match api.tokensV1Endpoint chainId addresses with
    | .ok (.arr l) => (srOk l, [.tokensV1 chainId addresses])
    | .ok .notArr => (srOk [], [.tokensV1 chainId addresses])
    | .error e =>
      (srFail (errMsg e "Failed to get multiple tokens"), [.tokensV1 chainId addresses])

/-- Embeds `getLatestTokenProfiles`: passthrough with array normalization. -/
def getLatestTokenProfiles (api : UpstreamApi) :
    DexScreenerServiceResponse (List DexScreenerProfile) × List ApiRequest :=
  match api.profilesLatestEndpoint with
  | .ok resp => (srOk (normalizeProfiles resp), [.tokenProfilesLatest])
  | .error e =>
    (srFail (errMsg e "Failed to get latest token profiles"), [.tokenProfilesLatest])

/-- Embeds `getLatestBoostedTokens`: passthrough with array normalization. -/
def getLatestBoostedTokens (api : UpstreamApi) :
    DexScreenerServiceResponse (List DexScreenerBoostedToken) × List ApiRequest :=
  match api.boostsLatestEndpoint with
  | .ok resp => (srOk (normalizeBoosts resp), [.tokenBoostsLatest])
  | .error e =>
    (srFail (errMsg e "Failed to get latest boosted tokens"), [.tokenBoostsLatest])

/-- Embeds `getTopBoostedTokens`: passthrough with array normalization. -/
def getTopBoostedTokens (api : UpstreamApi) :
    DexScreenerServiceResponse (List DexScreenerBoostedToken) × List ApiRequest :=
  match api.boostsTopEndpoint with
  | .ok resp => (srOk (normalizeBoosts resp), [.tokenBoostsTop])
  | .error e =>
    (srFail (errMsg e "Failed to get top boosted tokens"), [.tokenBoostsTop])

/-- Embeds `checkOrderStatus`: passthrough, `response.data || []`. -/
def checkOrderStatus (api : UpstreamApi) (chainId tokenAddress : String) :
    DexScreenerServiceResponse (List DexScreenerOrder) × List ApiRequest :=
  match api.ordersEndpoint chainId tokenAddress with
  | .ok d => (srOk (d.getD []), [.ordersV1 chainId tokenAddress])
  | .error e =>
    (srFail (errMsg e "Failed to check order status"), [.ordersV1 chainId tokenAddress])

/-- Embeds `getTokenPairsByChain`: passthrough, `response.data || []`. -/
def getTokenPairsByChain (api : UpstreamApi) (chainId tokenAddress : String) :
    DexScreenerServiceResponse (List DexScreenerPair) × List ApiRequest :=
  match api.tokenPairsV1Endpoint chainId tokenAddress with
  | .ok d => (srOk (d.getD []), [.tokenPairsV1 chainId tokenAddress])
  | .error e =>
    (srFail (errMsg e "Failed to get token pairs by chain"), [.tokenPairsV1 chainId tokenAddress])

/-! ### Formatting helpers -/

/-- Argument of `formatPrice`: TS `string | number`. -/
inductive PriceInput where
  | str (s : String)
  | num (q : ℚ)

/-- Embeds `formatPrice`: parse a string input with `parseFloat`, then apply tiered
`toFixed` precision (≥ 1 → 2, ≥ 0.01 → 4, else 8). -/
def formatPrice (price : PriceInput) : String :=
  let numPrice : ℚ :=
    match price with
    | .str s => parseFloatModel s
    | .num q => q
  if 1 ≤ numPrice then jsToFixed 2 numPrice
  else if 1 / 100 ≤ numPrice then jsToFixed 4 numPrice
  else jsToFixed 8 numPrice

/-- Embeds `formatPriceChange`: explicit `+` for nonnegative change, 2 decimals, `%`. -/
def formatPriceChange (change : ℚ) : String :=
  (if 0 ≤ change then "+" else "") ++ jsToFixed 2 change ++ "%"

/-- Embeds `formatUsdValue`: `$`-prefixed, `M`/`K` scaled, 2 decimals. -/
def formatUsdValue (value : ℚ) : String :=
  if 1000000 ≤ value then "$" ++ jsToFixed 2 (value / 1000000) ++ "M"
  else if 1000 ≤ value then "$" ++ jsToFixed 2 (value / 1000) ++ "K"
  else "$" ++ jsToFixed 2 value

/-! ### Rate limiting (`rateLimit`, lines 48-57) -/

/-- Time at which `rateLimit` lets the next request go out, which is also the
value it records into `lastRequestTime`: with `now = Date.now()`, if
`now - lastRequestTime < delay` the operation sleeps the remaining
`delay - (now - lastRequestTime)` milliseconds (the model takes `Date.now()`
after the sleep to be exactly the wake-up instant), otherwise it proceeds at
`now`. -/
def rateLimitSendTime (delay lastRequestTime now : Nat) : Nat :=
  if now - lastRequestTime < delay then
    now + (delay - (now - lastRequestTime))
  else now

/-- Rate-limit delay read at construction:
`parseInt(runtime.getSetting('DEXSCREENER_RATE_LIMIT_DELAY') || '100')`. -/
def rateLimitDelayConfig (setting : Option String) : Nat :=
  parseIntNat (jsOrStr setting "100")

end DexScreenerService

/-! ## Intent actions (`src/actions.ts`)

The regex/keyword extraction over the message text is the action boundary;
handlers are modelled from the point where extraction has produced its
optional matches, which is where all the claimed behavior lives. -/

/-- Embeds `liquidity?.usd || 0`, the liquidity measure of the token-info handler. -/
def liqUsd (p : DexScreenerPair) : ℚ :=
  match p.liquidity with
  | some l => l.usd.getD 0
  | none => 0

/-- The `pairs.reduce` of the token-info handler: fold from the first element,
replacing the accumulator exactly when the current pair's liquidity is
strictly higher. -/
def selectMainPair (p : DexScreenerPair) (rest : List DexScreenerPair) : DexScreenerPair :=
  rest.foldl (fun prev curr => if liqUsd prev < liqUsd curr then curr else prev) p

/-- Outcome of the token-info handler after the service call. -/
inductive TokenInfoReply where
  | failureText
  | noPairs
  | info (mainPair : DexScreenerPair) (listed : List DexScreenerPair)

/-- Token-info handler stage after `getTokenPairs` returns: failure text on an
unsuccessful result, a no-pairs message on an empty list, otherwise the
most-liquid pair as the canonical display pair and `pairs.slice(0, 3)` as the
listed trading pairs. -/
def getTokenInfoReply (result : DexScreenerServiceResponse (List DexScreenerPair)) :
    TokenInfoReply :=
  match result.success, result.data with
  | true, some ps =>
    match ps with
    | [] => .noPairs
    | p :: rest => .info (selectMainPair p rest) ((p :: rest).take 3)
  | _, _ => .failureText

/-- Rendered line of the trending action for one (index, pair). -/
def trendingLineOfPair (i : Nat) (p : DexScreenerPair) : String :=
  "**" ++ natStr (i + 1) ++ ". " ++ p.baseToken.symbol ++ "/" ++ p.quoteToken.symbol ++
    "**\n   💰 " ++ DexScreenerService.formatPrice (.str (jsOrStr p.priceUsd p.priceNative)) ++ " (" ++
    DexScreenerService.formatPriceChange p.priceChange.h24 ++ ")\n   📊 Vol: " ++
    DexScreenerService.formatUsdValue p.volume.h24 ++ " | MCap: " ++
    (match p.marketCap with
     | some m => if m ≠ 0 then DexScreenerService.formatUsdValue m else "N/A"
     | none => "N/A") ++
    "\n   🔥 Buys: " ++ natStr p.txns.h24.buys ++ " | Sells: " ++ natStr p.txns.h24.sells

/-- Rendering one trending entry: accessing any property of a non-pair entry
(`undefined` from the empty-array case, `null` never occurs post-filter but is
covered for totality) throws a `TypeError` in JS, modelled as `none`. -/
def trendingLineOfItem (i : Nat) (it : TrendItem) : Option String :=
  match it with
  | .pair p => some (trendingLineOfPair i p)
  | _ => none

/-- Heading of the trending action's response text:
`**🔥 Trending Tokens (${timeframeMatch?.[1] || '24h'})**` plus blank line. -/
def trendingHeading (tfMatch : Option String) : String :=
  "**🔥 Trending Tokens (" ++ jsOrStr tfMatch "24h" ++ ")**\n\n"

/-- Result returned by the trending action handler: `text = none` models the
handler throwing while rendering (a non-pair entry in the data). -/
structure TrendingActionOut where
  text : Option String
  data : Option (List TrendItem)

/-- Trending action handler, parameterized by the regex extraction results:
calls `getTrending({timeframe: tfMatch || '24h', limit: limMatch ? n : 10})`
and renders the heading plus one block per entry. -/
def getTrendingAction (api : UpstreamApi) (tfMatch : Option String) (limMatch : Option Nat) :
    TrendingActionOut :=
  let r := (DexScreenerService.getTrending api
    { timeframe := some (jsOrStr tfMatch "24h"), limit := some (limMatch.getD 10) }).1
  match r.success, r.data with
  | true, some items =>
    match (items.enum.map fun p => trendingLineOfItem p.1 p.2).mapM id with
    | some lines =>
      { text := some (trendingHeading tfMatch ++ String.intercalate "\n\n" lines),
        data := some items }
    | none => { text := none, data := none }
  | _, _ =>
    { text := some ("Failed to get trending tokens: " ++ (r.error.getD "undefined")),
      data := none }

/-! ## Predicates and fixtures used by the verification statements -/

/-- Number of characters after the last `'.'` of a string (its fractional
digits when it is a fixed-point numeral). -/
def fracDigitCount (s : String) : Nat :=
  ((s.data.reverse).takeWhile (fun c => c != '.')).length

/-- The `ServiceResult` envelope contract: success carries a payload, failure
carries a human-readable message; nothing else escapes an operation. -/
def envelopeOk {α : Type} (r : DexScreenerServiceResponse α) : Prop :=
  (r.success = true ∧ r.data.isSome = true ∧ r.error = none) ∨
  (r.success = false ∧ r.data = none ∧ r.error.isSome = true)

/-- Spec-side builder for the trending refinement, following the spec's words:
for one promoted token, "fetching that token's pair data and taking the first
pair", with failed lookups contributing nothing. -/
def specTrendingFirstPair (api : UpstreamApi) (t : DexScreenerBoostedToken) :
    Option TrendItem :=
  match api.tokensV1Endpoint t.chainId t.tokenAddress with
  | .ok (.arr (p :: _)) => some (.pair p)
  | _ => none

/-- A promoted token's pair lookup is decisive: it either fails outright or
returns a nonempty pair array (the domain on which the spec's trending
description is well-defined). -/
def lookupFailsOrNonempty (api : UpstreamApi) (t : DexScreenerBoostedToken) : Prop :=
  (∃ e, api.tokensV1Endpoint t.chainId t.tokenAddress = .error e) ∨
  (∃ p rest, api.tokensV1Endpoint t.chainId t.tokenAddress = .ok (.arr (p :: rest)))

/-- A transport error whose `error.message` is "boom" and that carries no
upstream body. -/
def errBoom : AxiosError :=
  { responseDataMessage := none, message := "boom" }

/-- An upstream oracle on which every endpoint fails with `errBoom`. -/
def emptyApi : UpstreamApi where
  searchEndpoint := fun _ => .error errBoom
  tokensEndpoint := fun _ => .error errBoom
  pairEndpoint := fun _ => .error errBoom
  tokensV1Endpoint := fun _ _ => .error errBoom
  profilesLatestEndpoint := .error errBoom
  boostsLatestEndpoint := .error errBoom
  boostsTopEndpoint := .error errBoom
  ordersEndpoint := fun _ _ => .error errBoom
  tokenPairsV1Endpoint := fun _ _ => .error errBoom

/-- A concrete trading pair on the `ethereum` chain. -/
def samplePair : DexScreenerPair where
  chainId := "ethereum"
  dexId := "uniswap"
  url := "https://dexscreener.com/ethereum/0xp"
  pairAddress := "0xp"
  labels := none
  baseToken := { address := "0xbase", name := "Base", symbol := "BASE", decimals := 18 }
  quoteToken := { address := "0xquote", name := "Quote", symbol := "QUOTE", decimals := 18 }
  priceNative := "1.5"
  priceUsd := some "3.2"
  txns := { m5 := ⟨1, 2⟩, h1 := ⟨3, 4⟩, h6 := ⟨5, 6⟩, h24 := ⟨7, 8⟩ }
  volume := { h24 := 100, h6 := 50, h1 := 25, m5 := 5 }
  priceChange := { m5 := 1, h1 := 2, h6 := 3, h24 := 4 }
  liquidity := some { usd := some 1000, base := 10, quote := 20 }
  fdv := some 5000
  marketCap := some 4000
  pairCreatedAt := some 1700000000000
  info := none

/-- A second concrete pair, distinguishable from `samplePair`. -/
def samplePairB : DexScreenerPair :=
  { samplePair with pairAddress := "0xpb", liquidity := some { usd := some 50, base := 1, quote := 2 } }

/-- A copy of `samplePair` already carrying the "new" label. -/
def pairWithNew : DexScreenerPair :=
  { samplePair with labels := some ["new"] }

/-- A promoted token whose pair lookup goes to address `0xa`. -/
def tokA : DexScreenerBoostedToken where
  url := "https://dexscreener.com/boost/a"
  chainId := "ethereum"
  tokenAddress := "0xa"
  amount := 100
  totalAmount := 200
  icon := none
  header := none
  description := none
  links := none

/-- A promoted token whose pair lookup goes to address `0xb`. -/
def tokB : DexScreenerBoostedToken :=
  { tokA with url := "https://dexscreener.com/boost/b", tokenAddress := "0xb" }

/-- A concrete token profile on `ethereum`. -/
def profA : DexScreenerProfile where
  url := "https://dexscreener.com/profile/a"
  chainId := "ethereum"
  tokenAddress := "0xa"
  icon := none
  header := none
  openGraph := none
  description := none
  links := none

/-- Oracle for the trending scenario with two promoted tokens whose lookups
both return one pair. -/
def trendWitnessApi : UpstreamApi :=
  { emptyApi with
    boostsTopEndpoint := .ok (.arr [tokA, tokB])
    tokensV1Endpoint := fun _ addr =>
      if addr = "0xa" then .ok (.arr [samplePair]) else .ok (.arr [samplePairB]) }

/-- Oracle with one promoted token whose pair lookup succeeds with an empty
array. -/
def trendEmptyArrApi : UpstreamApi :=
  { emptyApi with
    boostsTopEndpoint := .ok (.arr [tokA])
    tokensV1Endpoint := fun _ _ => .ok (.arr []) }

/-- Oracle whose text search returns exactly one `ethereum` pair. -/
def chainSearchApi : UpstreamApi :=
  { emptyApi with searchEndpoint := fun _ => .ok { pairs := some [samplePair] } }

/-- Oracle for the new-pairs scenario: one profile, whose token lookup returns
one pair without labels. -/
def newPairsWitnessApi : UpstreamApi :=
  { emptyApi with
    profilesLatestEndpoint := .ok (.arr [profA])
    tokensV1Endpoint := fun _ _ => .ok (.arr [samplePair]) }

/-! ## Lemmas: fixed-point rendering -/

theorem digitChar_ne_dot (d : Nat) : digitChar d ≠ '.' := by
  unfold digitChar
  by_cases h : d < 10
  · interval_cases d <;> decide
  · rw [List.getD_eq_default]
    · decide
    · simp only [List.length_cons, List.length_nil]
      omega

theorem mem_natDigitsRev_ne_dot (n : Nat) : ∀ c ∈ natDigitsRev n, c ≠ '.' := by
  induction n using Nat.strong_induction_on with
  | _ n ih =>
    rw [natDigitsRev]
    split
    next h =>
      intro c hc
      rw [List.mem_singleton] at hc
      subst hc
      exact digitChar_ne_dot _
    next h =>
      intro c hc
      rcases List.mem_cons.mp hc with h1 | h1
      · subst h1
        exact digitChar_ne_dot _
      · exact ih (n / 10) (Nat.div_lt_self (by omega) (by omega)) c h1

theorem natDigitsRev_length_le (n : Nat) : ∀ k, 1 ≤ k → n < 10 ^ k → (natDigitsRev n).length ≤ k := by
  induction n using Nat.strong_induction_on with
  | _ n ih =>
    intro k hk hn
    rw [natDigitsRev]
    split
    next h => simpa using hk
    next h =>
      have hk2 : 2 ≤ k := by
        by_contra hc
        have hk1 : k = 1 := by omega
        subst hk1
        rw [pow_one] at hn
        omega
      have hdiv : n / 10 < 10 ^ (k - 1) := by
        rw [Nat.div_lt_iff_lt_mul (by omega)]
        calc n < 10 ^ k := hn
        _ = 10 ^ (k - 1) * 10 := by
          rw [← pow_succ]
          congr 1
          omega
      have hrec := ih (n / 10) (Nat.div_lt_self (by omega) (by omega)) (k - 1) (by omega) hdiv
      simp only [List.length_cons]
      omega

theorem padDigits_length (f m : Nat) (hf : 1 ≤ f) (hm : m < 10 ^ f) :
    (padDigits f m).length = f := by
  have h := natDigitsRev_length_le m f hf hm
  simp only [padDigits, natChars, List.length_append, List.length_replicate,
    List.length_reverse]
  omega

theorem mem_padDigits_ne_dot (f m : Nat) : ∀ c ∈ padDigits f m, c ≠ '.' := by
  intro c hc
  simp only [padDigits, natChars, List.mem_append, List.mem_reverse, List.mem_replicate] at hc
  rcases hc with ⟨-, rfl⟩ | h
  · decide
  · exact mem_natDigitsRev_ne_dot m c h

theorem takeWhile_append_dot (l r : List Char) (h : ∀ c ∈ l, c ≠ '.') :
    (l ++ '.' :: r).takeWhile (fun c => c != '.') = l := by
  induction l with
  | nil => simp [List.takeWhile_cons]
  | cons c cl ih =>
    have hc : (c != '.') = true := by
      rw [bne_iff_ne]
      exact h c (by simp)
    simp only [List.cons_append, List.takeWhile_cons, hc, if_true]
    rw [ih (fun x hx => h x (by simp [hx]))]

theorem frac_jsToFixedNonneg (f : Nat) (q : ℚ) (hf : 1 ≤ f) :
    ∃ A P, jsToFixedNonnegChars f q = A ++ '.' :: P ∧ (∀ c ∈ P, c ≠ '.') ∧ P.length = f := by
  have hf0 : ¬ f = 0 := by omega
  refine ⟨natChars (jsRoundNat (q * (10 ^ f : ℚ)) / 10 ^ f),
    padDigits f (jsRoundNat (q * (10 ^ f : ℚ)) % 10 ^ f), ?_, mem_padDigits_ne_dot _ _, ?_⟩
  · simp [jsToFixedNonnegChars, hf0]
  · exact padDigits_length _ _ hf (Nat.mod_lt _ (Nat.pow_pos (by omega)))

theorem fracDigitCount_of_shape (f : Nat) (B A P : List Char)
    (hP : ∀ c ∈ P, c ≠ '.') (hlen : P.length = f) :
    fracDigitCount (String.mk (B ++ A ++ '.' :: P)) = f ∧
      '.' ∈ (String.mk (B ++ A ++ '.' :: P)).data := by
  constructor
  · show ((B ++ A ++ '.' :: P).reverse.takeWhile (fun c => c != '.')).length = f
    have hrev : (B ++ A ++ '.' :: P).reverse = P.reverse ++ '.' :: (A.reverse ++ B.reverse) := by
      simp [List.reverse_append, List.reverse_cons, List.append_assoc]
    rw [hrev, takeWhile_append_dot _ _ (fun c hc => hP c (List.mem_reverse.mp hc))]
    simp [hlen]
  · show '.' ∈ B ++ A ++ '.' :: P
    simp

theorem fracDigitCount_jsToFixed (f : Nat) (q : ℚ) (hf : 1 ≤ f) :
    fracDigitCount (jsToFixed f q) = f ∧ '.' ∈ (jsToFixed f q).data := by
  unfold jsToFixed jsToFixedChars
  split
  · obtain ⟨A, P, hEq, hP, hlen⟩ := frac_jsToFixedNonneg f (-q) hf
    rw [hEq]
    exact fracDigitCount_of_shape f ['-'] A P hP hlen
  · obtain ⟨A, P, hEq, hP, hlen⟩ := frac_jsToFixedNonneg f q hf
    rw [hEq]
    exact fracDigitCount_of_shape f [] A P hP hlen

/-- C6: `formatPrice` renders exactly 2 fractional digits for every price
`p ≥ 1`, exactly 4 for `0.01 ≤ p < 1`, exactly 8 for `p < 0.01`, and a
numeric-string input is first parsed and then formatted by the same tiers. -/
theorem C6_format_price_tiers (q : ℚ) :
    (1 ≤ q → fracDigitCount (DexScreenerService.formatPrice (.num q)) = 2) ∧
    (1 / 100 ≤ q ∧ q < 1 → fracDigitCount (DexScreenerService.formatPrice (.num q)) = 4) ∧
    (q < 1 / 100 → fracDigitCount (DexScreenerService.formatPrice (.num q)) = 8) ∧
    (∀ s : String, DexScreenerService.formatPrice (.str s) =
      DexScreenerService.formatPrice (.num (parseFloatModel s))) := by
  refine ⟨?_, ?_, ?_, fun s => rfl⟩
  · intro h
    show fracDigitCount (if 1 ≤ q then jsToFixed 2 q
      else if 1 / 100 ≤ q then jsToFixed 4 q else jsToFixed 8 q) = 2
    rw [if_pos h]
    exact (fracDigitCount_jsToFixed 2 q (by omega)).1
  · rintro ⟨h1, h2⟩
    show fracDigitCount (if 1 ≤ q then jsToFixed 2 q
      else if 1 / 100 ≤ q then jsToFixed 4 q else jsToFixed 8 q) = 4
    rw [if_neg (by linarith), if_pos h1]
    exact (fracDigitCount_jsToFixed 4 q (by omega)).1
  · intro h
    show fracDigitCount (if 1 ≤ q then jsToFixed 2 q
      else if 1 / 100 ≤ q then jsToFixed 4 q else jsToFixed 8 q) = 8
    rw [if_neg (by nlinarith), if_neg (not_le.mpr h)]
    exact (fracDigitCount_jsToFixed 8 q (by omega)).1

/-- Witness for C6 at the concrete price 5/2. -/
theorem C6_format_price_tiers_witness :
    (1 : ℚ) ≤ 5 / 2 ∧ fracDigitCount (DexScreenerService.formatPrice (.num (5 / 2))) = 2 :=
  ⟨by norm_num, (C6_format_price_tiers (5 / 2)).1 (by norm_num)⟩

/-! ## Lemmas: label augmentation and main-pair selection -/

theorem addNewLabel_has_new (p : DexScreenerPair) :
    "new" ∈ (DexScreenerService.addNewLabel p).labels.getD [] := by
  unfold DexScreenerService.addNewLabel
  cases hp : p.labels with
  | none => simp
  | some ls =>
    by_cases h : ls.contains "new"
    · simp only [h, if_true]
      simpa using h
    · have h' : "new" ∉ ls := by simpa using h
      simp [h']

theorem newPairItemOf_has_new (api : UpstreamApi) (pr : DexScreenerProfile)
    (p : DexScreenerPair) (h : DexScreenerService.newPairItemOf api pr = some p) :
    "new" ∈ p.labels.getD [] := by
  unfold DexScreenerService.newPairItemOf at h
  split at h
  · cases h
    exact addNewLabel_has_new _
  · exact absurd h (by simp)
  · exact absurd h (by simp)
  · exact absurd h (by simp)

/-- C3: every pair in a successful `getNewPairs` result carries `"new"` in its
label set; the label is appended (at the end) when absent and the label list
is left untouched when `"new"` is already present. -/
theorem C3_new_pairs_label :
    (∀ api params r tr, DexScreenerService.getNewPairs api params = (r, tr) →
       r.success = true → ∀ p ∈ r.data.getD [], "new" ∈ p.labels.getD []) ∧
    (∀ p ls, p.labels = some ls → "new" ∈ ls → DexScreenerService.addNewLabel p = p) ∧
    (∀ p ls, p.labels = some ls → "new" ∉ ls →
       (DexScreenerService.addNewLabel p).labels = some (ls ++ ["new"])) ∧
    (∀ p, p.labels = none → (DexScreenerService.addNewLabel p).labels = some ["new"]) := by
  refine ⟨?_, ?_, ?_, ?_⟩
  · intro api params r tr hrun hs p hp
    unfold DexScreenerService.getNewPairs at hrun
    cases h : api.profilesLatestEndpoint with
    | error e =>
      simp only [h] at hrun
      injection hrun with h1 h2
      subst h1
      simp [srFail] at hs
    | ok resp =>
      simp only [h] at hrun
      injection hrun with h1 h2
      subst h1
      simp only [srOk, Option.getD_some] at hp
      rw [List.mem_filterMap] at hp
      obtain ⟨a, ha, hid⟩ := hp
      rw [List.mem_map] at ha
      obtain ⟨pr, hpr, hitem⟩ := ha
      subst hitem
      exact newPairItemOf_has_new api pr p hid
  · intro p ls hls hmem
    have hc : ls.contains "new" = true := by simpa using hmem
    cases p
    simp only at hls
    subst hls
    simp [DexScreenerService.addNewLabel, hc, hmem]
  · intro p ls hls hmem
    have hc : ls.contains "new" = false := by simpa using hmem
    simp [DexScreenerService.addNewLabel, hls, hc, hmem]
  · intro p hls
    simp [DexScreenerService.addNewLabel, hls]

/-- Witness for C3: a successful concrete `getNewPairs` run, the label-less
fetched pair appearing with the `"new"` label, and an already-labelled pair
left untouched. -/
theorem C3_new_pairs_label_witness :
    (DexScreenerService.getNewPairs newPairsWitnessApi { chain := none, limit := none }).1.success
        = true ∧
    "new" ∈ (DexScreenerService.addNewLabel samplePair).labels.getD [] ∧
    DexScreenerService.addNewLabel pairWithNew = pairWithNew :=
  ⟨rfl,
    C3_new_pairs_label.1 newPairsWitnessApi { chain := none, limit := none }
      (DexScreenerService.getNewPairs newPairsWitnessApi { chain := none, limit := none }).1
      (DexScreenerService.getNewPairs newPairsWitnessApi { chain := none, limit := none }).2
      rfl rfl (DexScreenerService.addNewLabel samplePair) (List.mem_singleton.mpr rfl),
    C3_new_pairs_label.2.1 pairWithNew ["new"] rfl (by simp)⟩

theorem selectMainPair_spec (p : DexScreenerPair) (rest : List DexScreenerPair) :
    selectMainPair p rest ∈ p :: rest ∧
      ∀ q ∈ p :: rest, liqUsd q ≤ liqUsd (selectMainPair p rest) := by
  induction rest generalizing p with
  | nil =>
    constructor
    · simp [selectMainPair]
    · intro q hq
      simp only [List.mem_singleton] at hq
      subst hq
      simp [selectMainPair]
  | cons c cs ih =>
    have hfold : selectMainPair p (c :: cs) =
        selectMainPair (if liqUsd p < liqUsd c then c else p) cs := by
      simp [selectMainPair, List.foldl_cons]
    obtain ⟨hmem, hmax⟩ := ih (if liqUsd p < liqUsd c then c else p)
    constructor
    · rw [hfold]
      rcases List.mem_cons.mp hmem with h | h
      · rw [h]
        by_cases hpc : liqUsd p < liqUsd c
        · simp [hpc]
        · simp [hpc]
      · simp [h]
    · intro q hq
      rw [hfold]
      rcases List.mem_cons.mp hq with rfl | hq'
      · have h1 : liqUsd q ≤ liqUsd (if liqUsd q < liqUsd c then c else q) := by
          by_cases hpc : liqUsd q < liqUsd c
          · rw [if_pos hpc]
            exact le_of_lt hpc
          · rw [if_neg hpc]
        exact le_trans h1 (hmax _ (List.mem_cons_self _ _))
      rcases List.mem_cons.mp hq' with rfl | hq''
      · have h1 : liqUsd q ≤ liqUsd (if liqUsd p < liqUsd q then q else p) := by
          by_cases hpc : liqUsd p < liqUsd q
          · rw [if_pos hpc]
          · rw [if_neg hpc]
            exact le_of_not_lt hpc
        exact le_trans h1 (hmax _ (List.mem_cons_self _ _))
      · exact hmax q (List.mem_cons_of_mem _ hq'')

/-- C7: when the token-info handler gets a successful pair list and renders
the info reply, the canonical display pair has maximal USD liquidity (missing
liquidity counting as 0) over the whole list, and the listed trading pairs
are the first three. -/
theorem C7_token_info_main_pair (r : DexScreenerServiceResponse (List DexScreenerPair))
    (ps : List DexScreenerPair) (main : DexScreenerPair) (listed : List DexScreenerPair)
    (hs : r.success = true) (hd : r.data = some ps)
    (hreply : getTokenInfoReply r = .info main listed) :
    main ∈ ps ∧ (∀ q ∈ ps, liqUsd q ≤ liqUsd main) ∧
      listed = ps.take 3 ∧ listed.length ≤ 3 := by
  unfold getTokenInfoReply at hreply
  simp only [hs, hd] at hreply
  cases ps with
  | nil => simp at hreply
  | cons p rest =>
    cases hreply
    obtain ⟨h1, h2⟩ := selectMainPair_spec p rest
    exact ⟨h1, h2, rfl, List.length_take_le 3 _⟩

/-- Witness for C7 at a concrete two-pair list. -/
theorem C7_token_info_main_pair_witness :
    samplePair ∈ [samplePair, samplePairB] ∧
    (∀ q ∈ [samplePair, samplePairB], liqUsd q ≤ liqUsd samplePair) ∧
    [samplePair, samplePairB] = [samplePair, samplePairB].take 3 ∧
    ([samplePair, samplePairB] : List DexScreenerPair).length ≤ 3 :=
  C7_token_info_main_pair (srOk [samplePair, samplePairB]) [samplePair, samplePairB]
    samplePair [samplePair, samplePairB] rfl rfl (by norm_num [getTokenInfoReply, srOk, selectMainPair, liqUsd, samplePair, samplePairB])

/-- C5: `getMultipleTokens` fails fast with the fixed message and zero network
requests on any list longer than 30, and issues exactly one batched lookup of
the comma-joined addresses on any list of length at most 30. -/
theorem C5_multiple_tokens_limit (api : UpstreamApi) (chainId : String)
    (addrs : List String) :
    (addrs.length > 30 →
      DexScreenerService.getMultipleTokens api chainId addrs =
        (srFail "Maximum 30 token addresses allowed", [])) ∧
    (addrs.length ≤ 30 →
      (DexScreenerService.getMultipleTokens api chainId addrs).2 =
        [.tokensV1 chainId (String.intercalate "," addrs)]) := by
  constructor
  · intro h
    simp [DexScreenerService.getMultipleTokens, h]
  · intro h
    have h30 : ¬ addrs.length > 30 := by omega
    unfold DexScreenerService.getMultipleTokens
    simp only [h30, if_false]
    cases hx : api.tokensV1Endpoint chainId (String.intercalate "," addrs) with
    | ok b => cases b <;> simp [hx]
    | error e => simp [hx]

/-- Witness for C5: 31 addresses are rejected without a request; 2 addresses
produce exactly one batched request. -/
theorem C5_multiple_tokens_limit_witness :
    (List.replicate 31 "a").length > 30 ∧
    DexScreenerService.getMultipleTokens emptyApi "ethereum" (List.replicate 31 "a") =
      (srFail "Maximum 30 token addresses allowed", []) ∧
    (["a", "b"] : List String).length ≤ 30 ∧
    (DexScreenerService.getMultipleTokens emptyApi "ethereum" ["a", "b"]).2 =
      [.tokensV1 "ethereum" "a,b"] :=
  ⟨by decide,
    (C5_multiple_tokens_limit emptyApi "ethereum" (List.replicate 31 "a")).1 (by decide),
    by decide,
    (C5_multiple_tokens_limit emptyApi "ethereum" ["a", "b"]).2 (by decide)⟩

/-! ## Lemmas: rate limiting -/

theorem rateLimitSendTime_ge (delay last now : Nat) (h : last ≤ now) :
    last + delay ≤ DexScreenerService.rateLimitSendTime delay last now := by
  unfold DexScreenerService.rateLimitSendTime
  split <;> omega

/-- C8: two consecutive requests through the throttle are at least the
configured minimum delay apart: the second send instant (which is also the
recorded last-request timestamp) is at least `delay` after the first; the
configured default delay is 100 ms. -/
theorem C8_rate_limit_spacing (delay t0 n1 n2 : Nat) (h1 : t0 ≤ n1)
    (h2 : DexScreenerService.rateLimitSendTime delay t0 n1 ≤ n2) :
    delay ≤ DexScreenerService.rateLimitSendTime delay
        (DexScreenerService.rateLimitSendTime delay t0 n1) n2 -
      DexScreenerService.rateLimitSendTime delay t0 n1 ∧
    DexScreenerService.rateLimitDelayConfig none = 100 := by
  constructor
  · have hstep := rateLimitSendTime_ge delay (DexScreenerService.rateLimitSendTime delay t0 n1) n2 h2
    have hfirst := rateLimitSendTime_ge delay t0 n1 h1
    omega
  · rfl

/-- Witness for C8 with `delay = 100`, first call at time 30. -/
theorem C8_rate_limit_spacing_witness :
    (0 : Nat) ≤ 30 ∧ DexScreenerService.rateLimitSendTime 100 0 30 ≤ 130 ∧
    100 ≤ DexScreenerService.rateLimitSendTime 100
        (DexScreenerService.rateLimitSendTime 100 0 30) 130 -
      DexScreenerService.rateLimitSendTime 100 0 30 :=
  ⟨by omega, by decide, (C8_rate_limit_spacing 100 0 30 130 (by omega) (by decide)).1⟩

/-- C9: a promoted token whose pair lookup succeeds with an empty array is not
dropped: the post-fetch filter removes only `null` placeholders, so the
`undefined` first element of the empty array survives inside a successful
`getTrending` result. -/
theorem C9_trending_undefined_entry :
    (DexScreenerService.getTrending trendEmptyArrApi { timeframe := none, limit := some 1 }).1 =
      srOk [TrendItem.undef] ∧
    DexScreenerService.trendingItemOf trendEmptyArrApi tokA = TrendItem.undef ∧
    [TrendItem.undef].filter (fun it => !it.isNull) = [TrendItem.undef] :=
  ⟨rfl, rfl, rfl⟩

/-! ## Lemmas: trending refinement -/

theorem trendFilter_eq_spec (api : UpstreamApi) (l : List DexScreenerBoostedToken)
    (hl : ∀ t ∈ l, lookupFailsOrNonempty api t) :
    (l.map (DexScreenerService.trendingItemOf api)).filter (fun it => !it.isNull) =
      l.filterMap (specTrendingFirstPair api) := by
  induction l with
  | nil => rfl
  | cons t ts ih =>
    have ht := hl t (List.mem_cons_self _ _)
    have hts := ih (fun x hx => hl x (List.mem_cons_of_mem _ hx))
    rcases ht with ⟨e, he⟩ | ⟨p, rest, hp⟩
    · have h1 : DexScreenerService.trendingItemOf api t = TrendItem.nul := by
        unfold DexScreenerService.trendingItemOf
        rw [he]
      have h2 : specTrendingFirstPair api t = none := by
        unfold specTrendingFirstPair
        rw [he]
      simp only [List.map_cons, List.filter_cons, List.filterMap_cons, h1, h2]
      simpa using hts
    · have h1 : DexScreenerService.trendingItemOf api t = TrendItem.pair p := by
        unfold DexScreenerService.trendingItemOf
        rw [hp]
      have h2 : specTrendingFirstPair api t = some (TrendItem.pair p) := by
        unfold specTrendingFirstPair
        rw [hp]
      simp only [List.map_cons, List.filter_cons, List.filterMap_cons, h1, h2]
      simpa [TrendItem.isNull] using hts

/-- C2 (amended): for every promoted-token list and every limit (a zero or
absent limit meaning 10), provided each of the first-limit tokens' pair
lookups either fails or returns a nonempty pair array, `getTrending` returns
success with exactly the spec's list — first `limit` tokens in listed order,
each contributing its first pair, failed lookups dropped — and the first
network call targets the promoted-tokens endpoint. -/
theorem C2_trending_amended (api : UpstreamApi) (params : DexScreenerTrendingParams)
    (toks : List DexScreenerBoostedToken)
    (r : DexScreenerServiceResponse (List TrendItem)) (tr : List ApiRequest)
    (hb : api.boostsTopEndpoint = .ok (.arr toks))
    (hl : ∀ t ∈ toks.take (jsOrNat params.limit 10), lookupFailsOrNonempty api t)
    (hrun : DexScreenerService.getTrending api params = (r, tr)) :
    r.success = true ∧
    r.data = some ((toks.take (jsOrNat params.limit 10)).filterMap (specTrendingFirstPair api)) ∧
    tr.head? = some ApiRequest.tokenBoostsTop := by
  unfold DexScreenerService.getTrending at hrun
  simp only [hb, DexScreenerService.normalizeBoosts] at hrun
  injection hrun with h1 h2
  subst h1
  subst h2
  refine ⟨rfl, ?_, rfl⟩
  exact congrArg some (trendFilter_eq_spec api (toks.take (jsOrNat params.limit 10)) hl)

/-- Counterexample to C2 as stated: one promoted token, `limit = 0`; the
claimed construction takes the first 0 promoted tokens and predicts the empty
list, but the code treats the zero limit as falsy (taking 10) and the token's
successful empty-array lookup contributes an undefined entry instead of a
first pair, so the returned data is a one-element list. -/
theorem C2_counterexample :
    (DexScreenerService.getTrending trendEmptyArrApi
        { timeframe := none, limit := some 0 }).1.data = some [TrendItem.undef] ∧
    some [TrendItem.undef] ≠ some ([] : List TrendItem) :=
  ⟨rfl, by simp⟩

/-- Witness for the amended C2: two promoted tokens, limit 2, both lookups
returning one pair; the result is both pairs in promoted order and the first
request is the promoted-tokens endpoint. -/
theorem C2_trending_amended_witness :
    (DexScreenerService.getTrending trendWitnessApi
        { timeframe := none, limit := some 2 }).1.success = true ∧
    (DexScreenerService.getTrending trendWitnessApi
        { timeframe := none, limit := some 2 }).1.data =
      some [TrendItem.pair samplePair, TrendItem.pair samplePairB] ∧
    (DexScreenerService.getTrending trendWitnessApi
        { timeframe := none, limit := some 2 }).2.head? = some ApiRequest.tokenBoostsTop := by
  have h := C2_trending_amended trendWitnessApi { timeframe := none, limit := some 2 }
    [tokA, tokB]
    (DexScreenerService.getTrending trendWitnessApi { timeframe := none, limit := some 2 }).1
    (DexScreenerService.getTrending trendWitnessApi { timeframe := none, limit := some 2 }).2
    rfl
    (by
      intro t ht
      have hta : [tokA, tokB].take (jsOrNat (some 2) 10) = [tokA, tokB] := rfl
      rw [hta] at ht
      rcases List.mem_cons.mp ht with rfl | ht'
      · exact Or.inr ⟨samplePair, [], rfl⟩
      rcases List.mem_cons.mp ht' with rfl | ht''
      · exact Or.inr ⟨samplePairB, [], rfl⟩
      · exact absurd ht'' (List.not_mem_nil _))
    rfl
  exact ⟨h.1, h.2.1.trans rfl, h.2.2⟩

/-! ## Lemmas: chain filtering and sorting -/

theorem chainSorted_pairwise (resp : SearchResponseBody) (params : DexScreenerChainParams)
    (sb : SortKey) (hsb : params.sortBy = some sb) :
    (DexScreenerService.chainSorted resp params).Pairwise
      (fun a b => DexScreenerService.chainMetric sb b ≤ DexScreenerService.chainMetric sb a) := by
  unfold DexScreenerService.chainSorted
  rw [hsb]
  have hs := @List.sorted_mergeSort DexScreenerPair
    (DexScreenerService.chainSortLe sb)
    (fun a b c h1 h2 => by
      simp only [DexScreenerService.chainSortLe, decide_eq_true_eq] at *
      exact le_trans h2 h1)
    (fun a b => by
      simp only [DexScreenerService.chainSortLe, Bool.or_eq_true, decide_eq_true_eq]
      exact le_total _ _)
    (DexScreenerService.chainFiltered resp params.chain)
  exact hs.imp (fun h => by
    simpa [DexScreenerService.chainSortLe] using h)

theorem mem_chainSorted_chain (resp : SearchResponseBody) (params : DexScreenerChainParams)
    (p : DexScreenerPair) (hp : p ∈ DexScreenerService.chainSorted resp params) :
    jsToLowerCase p.chainId = jsToLowerCase params.chain := by
  have hpf : p ∈ DexScreenerService.chainFiltered resp params.chain := by
    unfold DexScreenerService.chainSorted at hp
    cases hsb : params.sortBy with
    | some sb =>
      rw [hsb] at hp
      exact List.mem_mergeSort.mp hp
    | none =>
      rw [hsb] at hp
      exact hp
  have := List.of_mem_filter hpf
  simpa using this

/-- C4 (amended): every pair of a successful `getPairsByChain` result is on
the requested chain (case-insensitively); with a sort key the result is
descending in that metric (txns = 24h buys+sells); and the result length is
bounded by the nonzero requested limit, or by 20 when the limit is absent or
zero. -/
theorem C4_pairs_by_chain_amended (api : UpstreamApi) (params : DexScreenerChainParams)
    (r : DexScreenerServiceResponse (List DexScreenerPair)) (tr : List ApiRequest)
    (hrun : DexScreenerService.getPairsByChain api params = (r, tr))
    (hs : r.success = true) :
    (∀ p ∈ r.data.getD [], jsToLowerCase p.chainId = jsToLowerCase params.chain) ∧
    (∀ sb, params.sortBy = some sb → (r.data.getD []).Pairwise
      (fun a b => DexScreenerService.chainMetric sb b ≤ DexScreenerService.chainMetric sb a)) ∧
    (r.data.getD []).length ≤ DexScreenerService.chainEffLimit params.limit := by
  unfold DexScreenerService.getPairsByChain at hrun
  cases h : api.searchEndpoint params.chain with
  | error e =>
    simp only [h] at hrun
    injection hrun with h1 h2
    subst h1
    simp [srFail] at hs
  | ok resp =>
    simp only [h] at hrun
    injection hrun with h1 h2
    subst h1
    simp only [srOk, Option.getD_some]
    refine ⟨?_, ?_, List.length_take_le _ _⟩
    · intro p hp
      exact mem_chainSorted_chain resp params p (List.mem_of_mem_take hp)
    · intro sb hsb
      exact List.Pairwise.sublist (List.take_sublist _ _) (chainSorted_pairwise resp params sb hsb)

/-- Counterexample to C4 as stated: the search returns one matching pair and
the caller passes `limit = 0`; truncation to that limit would return the empty
list, but the zero limit is falsy and the code truncates to 20, returning the
pair. -/
theorem C4_counterexample :
    (DexScreenerService.getPairsByChain chainSearchApi
        { chain := "ethereum", sortBy := none, limit := some 0 }).1.data = some [samplePair] ∧
    ([samplePair] : List DexScreenerPair).length ≠ 0 :=
  ⟨rfl, by simp⟩

/-- Witness for the amended C4 at a concrete one-pair search result with
limit 5. -/
theorem C4_pairs_by_chain_amended_witness :
    (DexScreenerService.getPairsByChain chainSearchApi
        { chain := "ethereum", sortBy := none, limit := some 5 }).1.success = true ∧
    jsToLowerCase samplePair.chainId = jsToLowerCase "ethereum" ∧
    ((DexScreenerService.getPairsByChain chainSearchApi
        { chain := "ethereum", sortBy := none, limit := some 5 }).1.data.getD
        []).length ≤ DexScreenerService.chainEffLimit (some 5) := by
  have h := C4_pairs_by_chain_amended chainSearchApi
    { chain := "ethereum", sortBy := none, limit := some 5 }
    (DexScreenerService.getPairsByChain chainSearchApi
      { chain := "ethereum", sortBy := none, limit := some 5 }).1
    (DexScreenerService.getPairsByChain chainSearchApi
      { chain := "ethereum", sortBy := none, limit := some 5 }).2
    rfl rfl
  refine ⟨rfl, h.1 samplePair ?_, h.2.2⟩
  have hd : ((DexScreenerService.getPairsByChain chainSearchApi
      { chain := "ethereum", sortBy := none, limit := some 5 }).1.data.getD [])
      = [samplePair] := rfl
  rw [hd]
  exact List.mem_singleton.mpr rfl

/-- C1: every client operation resolves to the ServiceResult envelope —
success with a payload or failure with a message, never an uncaught fault —
and whenever the operation's primary request fails, the error message follows
the upstream-message, then transport-message, then per-operation-fallback
preference chain. -/
theorem C1_service_error_envelope :
    (∀ api params, envelopeOk (DexScreenerService.search api params).1 ∧
      ∀ e, api.searchEndpoint params.query = .error e →
        (DexScreenerService.search api params).1 =
          srFail (errMsg e "Failed to search tokens")) ∧
    (∀ api params, envelopeOk (DexScreenerService.getTokenPairs api params).1 ∧
      ∀ e, api.tokensEndpoint params.tokenAddress = .error e →
        (DexScreenerService.getTokenPairs api params).1 =
          srFail (errMsg e "Failed to get token pairs")) ∧
    (∀ api params, envelopeOk (DexScreenerService.getPair api params).1 ∧
      ∀ e, api.pairEndpoint params.pairAddress = .error e →
        (DexScreenerService.getPair api params).1 =
          srFail (errMsg e "Failed to get pair")) ∧
    (∀ api params, envelopeOk (DexScreenerService.getTrending api params).1 ∧
      ∀ e, api.boostsTopEndpoint = .error e →
        (DexScreenerService.getTrending api params).1 =
          srFail (errMsg e "Failed to get trending pairs")) ∧
    (∀ api params, envelopeOk (DexScreenerService.getPairsByChain api params).1 ∧
      ∀ e, api.searchEndpoint params.chain = .error e →
        (DexScreenerService.getPairsByChain api params).1 =
          srFail (errMsg e "Failed to get pairs by chain")) ∧
    (∀ api params, envelopeOk (DexScreenerService.getNewPairs api params).1 ∧
      ∀ e, api.profilesLatestEndpoint = .error e →
        (DexScreenerService.getNewPairs api params).1 =
          srFail (errMsg e "Failed to get new pairs")) ∧
    (∀ api addr, envelopeOk (DexScreenerService.getTokenProfile api addr).1 ∧
      ∀ e, api.profilesLatestEndpoint = .error e →
        (DexScreenerService.getTokenProfile api addr).1 =
          srFail (errMsg e "Failed to get token profile")) ∧
    (∀ api chainId addrs, envelopeOk (DexScreenerService.getMultipleTokens api chainId addrs).1 ∧
      ∀ e, addrs.length ≤ 30 →
        api.tokensV1Endpoint chainId (String.intercalate "," addrs) = .error e →
        (DexScreenerService.getMultipleTokens api chainId addrs).1 =
          srFail (errMsg e "Failed to get multiple tokens")) ∧
    (∀ api, envelopeOk (DexScreenerService.getLatestTokenProfiles api).1 ∧
      ∀ e, api.profilesLatestEndpoint = .error e →
        (DexScreenerService.getLatestTokenProfiles api).1 =
          srFail (errMsg e "Failed to get latest token profiles")) ∧
    (∀ api, envelopeOk (DexScreenerService.getLatestBoostedTokens api).1 ∧
      ∀ e, api.boostsLatestEndpoint = .error e →
        (DexScreenerService.getLatestBoostedTokens api).1 =
          srFail (errMsg e "Failed to get latest boosted tokens")) ∧
    (∀ api, envelopeOk (DexScreenerService.getTopBoostedTokens api).1 ∧
      ∀ e, api.boostsTopEndpoint = .error e →
        (DexScreenerService.getTopBoostedTokens api).1 =
          srFail (errMsg e "Failed to get top boosted tokens")) ∧
    (∀ api chainId addr, envelopeOk (DexScreenerService.checkOrderStatus api chainId addr).1 ∧
      ∀ e, api.ordersEndpoint chainId addr = .error e →
        (DexScreenerService.checkOrderStatus api chainId addr).1 =
          srFail (errMsg e "Failed to check order status")) ∧
    (∀ api chainId addr, envelopeOk (DexScreenerService.getTokenPairsByChain api chainId addr).1 ∧
      ∀ e, api.tokenPairsV1Endpoint chainId addr = .error e →
        (DexScreenerService.getTokenPairsByChain api chainId addr).1 =
          srFail (errMsg e "Failed to get token pairs by chain")) := by
  refine ⟨?_, ?_, ?_, ?_, ?_, ?_, ?_, ?_, ?_, ?_, ?_, ?_, ?_⟩
  · intro api p
    constructor
    · cases h : api.searchEndpoint p.query <;>
        simp [DexScreenerService.search, h, envelopeOk, srOk, srFail]
    · intro e he
      simp [DexScreenerService.search, he]
  · intro api p
    constructor
    · cases h : api.tokensEndpoint p.tokenAddress <;>
        simp [DexScreenerService.getTokenPairs, h, envelopeOk, srOk, srFail]
    · intro e he
      simp [DexScreenerService.getTokenPairs, he]
  · intro api p
    constructor
    · cases h : api.pairEndpoint p.pairAddress with
      | ok resp =>
        cases hr : resp.pair <;>
          simp [DexScreenerService.getPair, h, hr, envelopeOk, srOk, srFail]
      | error e =>
        simp [DexScreenerService.getPair, h, envelopeOk, srFail]
    · intro e he
      simp [DexScreenerService.getPair, he]
  · intro api p
    constructor
    · cases h : api.boostsTopEndpoint <;>
        simp [DexScreenerService.getTrending, h, envelopeOk, srOk, srFail]
    · intro e he
      simp [DexScreenerService.getTrending, he]
  · intro api p
    constructor
    · cases h : api.searchEndpoint p.chain <;>
        simp [DexScreenerService.getPairsByChain, h, envelopeOk, srOk, srFail]
    · intro e he
      simp [DexScreenerService.getPairsByChain, he]
  · intro api p
    constructor
    · cases h : api.profilesLatestEndpoint <;>
        simp [DexScreenerService.getNewPairs, h, envelopeOk, srOk, srFail]
    · intro e he
      simp [DexScreenerService.getNewPairs, he]
  · intro api addr
    constructor
    · cases h : api.profilesLatestEndpoint with
      | ok resp =>
        cases hf : (DexScreenerService.normalizeProfiles resp).find?
            (fun p => jsToLowerCase p.tokenAddress == jsToLowerCase addr) <;>
          simp [DexScreenerService.getTokenProfile, h, hf, envelopeOk, srOk, srFail]
      | error e =>
        simp [DexScreenerService.getTokenProfile, h, envelopeOk, srFail]
    · intro e he
      simp [DexScreenerService.getTokenProfile, he]
  · intro api chainId addrs
    constructor
    · by_cases hlen : addrs.length > 30
      · simp [DexScreenerService.getMultipleTokens, hlen, envelopeOk, srFail]
      · cases h : api.tokensV1Endpoint chainId (String.intercalate "," addrs) with
        | ok b =>
          cases b <;>
            simp [DexScreenerService.getMultipleTokens, hlen, h, envelopeOk, srOk, srFail]
        | error e =>
          simp [DexScreenerService.getMultipleTokens, hlen, h, envelopeOk, srFail]
    · intro e hle he
      have hlen : ¬ addrs.length > 30 := by omega
      simp [DexScreenerService.getMultipleTokens, hlen, he]
  · intro api
    constructor
    · cases h : api.profilesLatestEndpoint <;>
        simp [DexScreenerService.getLatestTokenProfiles, h, envelopeOk, srOk, srFail]
    · intro e he
      simp [DexScreenerService.getLatestTokenProfiles, he]
  · intro api
    constructor
    · cases h : api.boostsLatestEndpoint <;>
        simp [DexScreenerService.getLatestBoostedTokens, h, envelopeOk, srOk, srFail]
    · intro e he
      simp [DexScreenerService.getLatestBoostedTokens, he]
  · intro api
    constructor
    · cases h : api.boostsTopEndpoint <;>
        simp [DexScreenerService.getTopBoostedTokens, h, envelopeOk, srOk, srFail]
    · intro e he
      simp [DexScreenerService.getTopBoostedTokens, he]
  · intro api chainId addr
    constructor
    · cases h : api.ordersEndpoint chainId addr <;>
        simp [DexScreenerService.checkOrderStatus, h, envelopeOk, srOk, srFail]
    · intro e he
      simp [DexScreenerService.checkOrderStatus, he]
  · intro api chainId addr
    constructor
    · cases h : api.tokenPairsV1Endpoint chainId addr <;>
        simp [DexScreenerService.getTokenPairsByChain, h, envelopeOk, srOk, srFail]
    · intro e he
      simp [DexScreenerService.getTokenPairsByChain, he]

/-- Witness for C1: on an oracle whose every endpoint fails with a transport
error carrying message "boom" and no upstream body, `search` returns the
failure envelope with the transport message. -/
theorem C1_service_error_envelope_witness :
    (DexScreenerService.search emptyApi { query := "PEPE" }).1 =
      srFail (errMsg errBoom "Failed to search tokens") :=
  (C1_service_error_envelope.1 emptyApi { query := "PEPE" }).2 errBoom rfl

/-! ## Lemmas: timeframe independence -/

theorem getTrending_timeframe_irrel (api : UpstreamApi) (tf1 tf2 : Option String)
    (lim : Option Nat) :
    DexScreenerService.getTrending api { timeframe := tf1, limit := lim } =
      DexScreenerService.getTrending api { timeframe := tf2, limit := lim } := rfl

/-- C10: two `getTrending` calls differing only in the timeframe produce
identical results and identical request traces; in the trending action the
timeframe influences only the heading of the rendered text, never the data
payload. -/
theorem C10_trending_timeframe_independence :
    (∀ api (tf1 tf2 : Option String) (lim : Option Nat),
      DexScreenerService.getTrending api { timeframe := tf1, limit := lim } =
        DexScreenerService.getTrending api { timeframe := tf2, limit := lim }) ∧
    (∀ api tfm1 tfm2 limm,
      (getTrendingAction api tfm1 limm).data = (getTrendingAction api tfm2 limm).data ∧
      ((getTrendingAction api tfm1 limm).text = (getTrendingAction api tfm2 limm).text ∨
       ∃ b, (getTrendingAction api tfm1 limm).text = some (trendingHeading tfm1 ++ b) ∧
            (getTrendingAction api tfm2 limm).text = some (trendingHeading tfm2 ++ b))) := by
  refine ⟨fun api tf1 tf2 lim => getTrending_timeframe_irrel api tf1 tf2 lim, ?_⟩
  intro api tfm1 tfm2 limm
  have heq : (DexScreenerService.getTrending api
      { timeframe := some (jsOrStr tfm1 "24h"), limit := some (limm.getD 10) }).1 =
    (DexScreenerService.getTrending api
      { timeframe := some (jsOrStr tfm2 "24h"), limit := some (limm.getD 10) }).1 :=
    congrArg Prod.fst (getTrending_timeframe_irrel api _ _ _)
  unfold getTrendingAction
  rw [heq]
  rcases hres : (DexScreenerService.getTrending api
      { timeframe := some (jsOrStr tfm2 "24h"), limit := some (limm.getD 10) }).1
    with ⟨s, d, er⟩
  cases s
  · cases d <;> exact ⟨rfl, Or.inl rfl⟩
  · cases d with
    | none => exact ⟨rfl, Or.inl rfl⟩
    | some items =>
      dsimp only
      cases hl : (items.enum.map fun p => trendingLineOfItem p.1 p.2).mapM id with
      | none => exact ⟨rfl, Or.inl rfl⟩
      | some lines =>
        exact ⟨rfl, Or.inr ⟨String.intercalate "\n\n" lines, rfl, rfl⟩⟩
